import Mathlib

/-!
Verification of the whisper daemon (src/whisper_daemon.py), a line-based
stdin/stdout worker: it resolves a model name from the environment, loads a
speech-to-text model once, prints READY, then answers one transcript line per
input line until end-of-stream, catching per-request failures.

The transcription backend is an external library; it is modelled as an oracle
(`Model.transcribe`) returning either a list of segments or an exception
message. Everything else is translated directly from the source.
-/

namespace WhisperDaemon

/-- The set of characters removed by Python str.strip with no argument:
exactly the characters for which str.isspace is true, namely U+0009 to
U+000D, U+001C to U+001F, the space U+0020, U+0085, U+00A0, U+1680,
U+2000 to U+200A, U+2028, U+2029, U+202F, U+205F and U+3000. -/
def isPySpace (c : Char) : Bool :=
  (0x09 ≤ c.toNat && c.toNat ≤ 0x0d) ||
  (0x1c ≤ c.toNat && c.toNat ≤ 0x20) ||
  c.toNat = 0x85 || c.toNat = 0xa0 || c.toNat = 0x1680 ||
  (0x2000 ≤ c.toNat && c.toNat ≤ 0x200a) ||
  c.toNat = 0x2028 || c.toNat = 0x2029 || c.toNat = 0x202f ||
  c.toNat = 0x205f || c.toNat = 0x3000

/-- Python str.strip with no argument: drop leading and trailing whitespace
characters. -/
def pyStrip (s : String) : String :=
  String.mk (((s.toList.dropWhile isPySpace).reverse.dropWhile isPySpace).reverse)

/-- A segment produced by the backend: only its text field is used
(`s.text` in the source). -/
structure Segment where
  text : String
deriving DecidableEq, Repr

/-- Outcome of one call to model.transcribe, as observed by the loop body:
either the iterable of segments, or an exception (any failure inside the
try block — missing file, decode error, backend exception). -/
inductive TranscribeResult
  | ok (segments : List Segment)
  | error (msg : String)
deriving DecidableEq, Repr

/-- The loaded model: an opaque handle whose only operation used by the
daemon is transcribe, keyed by the (stripped) path argument. The fixed
keyword arguments of the call (language, beam size, VAD settings) do not
vary per request and are absorbed into the oracle. -/
structure Model where
  transcribe : String → TranscribeResult

/-- What one iteration of the request loop writes and does:
the stdout line (without its newline), the stderr lines, and the path the
model was invoked with (none when the model was not invoked). -/
structure StepOutput where
  out : String
  err : List String
  calledWith : Option String
deriving Repr

/-- One iteration of the for-loop body (lines 31-52 of the source):
strip the line; a blank result writes a blank stdout line without touching
the model; otherwise call transcribe on the stripped path, joining the
stripped segment texts with single spaces on success, and on exception
write the diagnostic to stderr and output the empty string. -/
def processLine (model : Model) (line : String) : StepOutput :=
  let path := pyStrip line
  if path = "" then
    { out := "", err := [], calledWith := none }
  else
    match model.transcribe path with
    | TranscribeResult.ok segments =>
        { out := String.intercalate " " (segments.map (fun s => pyStrip s.text)),
          err := [], calledWith := some path }
    | TranscribeResult.error msg =>
        { out := "", err := ["Error: " ++ msg], calledWith := some path }

/-- The request loop over the whole input stream: one stdout line per input
line, in order, until end-of-stream. -/
def requestLoop (model : Model) : List String → List String
  | [] => []
  | line :: rest => (processLine model line).out :: requestLoop model rest

/-- Daemon state between loop iterations: the model handle loaded at
startup, the input lines not yet read, and the stdout lines written so far
(in order). -/
structure DaemonState where
  model : Model
  pendingInput : List String
  output : List String

/-- One small step of the request loop: consume the next input line and
append its stdout line; none when standard input is at end-of-stream. -/
def step (s : DaemonState) : Option DaemonState :=
  match s.pendingInput with
  | [] => none
  | line :: rest =>
      some { model := s.model
             pendingInput := rest
             output := s.output ++ [(processLine s.model line).out] }

/-- Run the step machine for a given amount of fuel. -/
def runFrom (s : DaemonState) : Nat → DaemonState
  | 0 => s
  | fuel + 1 =>
      match step s with
      | none => s
      | some s2 => runFrom s2 fuel

/-- Configuration resolution (line 14): the model name comes from the
WHISPER_MODEL environment variable, defaulting to "small". The environment
is modelled as a partial lookup map. -/
def getModelName (env : String → Option String) : String :=
  (env "WHISPER_MODEL").getD "small"

/-- Events on standard output, in order: the READY token, then transcript
lines. -/
inductive OutEvent
  | ready
  | transcript (text : String)
deriving DecidableEq, Repr

/-- The whole of main, from the point of view of standard output: resolve
the model name, construct the model (loadModel is the oracle for the
WhisperModel constructor; an exception there propagates uncaught, so the
result is that error with no output at all), emit READY, then run the
request loop over the input lines. -/
def main (env : String → Option String) (loadModel : String → Except String Model)
    (input : List String) : Except String (List OutEvent) :=
  match loadModel (getModelName env) with
  | Except.error e => Except.error e
  | Except.ok model =>
      Except.ok (OutEvent.ready :: (requestLoop model input).map OutEvent.transcript)

/-- A concrete model used to instantiate theorems at concrete inputs. -/
def testModel : Model :=
  { transcribe := fun path =>
      if path = "bad" then TranscribeResult.error "boom"
      else if path = "silent" then TranscribeResult.ok []
      else TranscribeResult.ok [⟨" hello "⟩, ⟨"world "⟩] }

/-- The loop produces outputs by mapping the loop body over the input lines
in order. -/
theorem requestLoop_eq_map (model : Model) (input : List String) :
    requestLoop model input = input.map (fun line => (processLine model line).out) := by
  induction input with
  | nil => rfl
  | cons line rest ih => simp [requestLoop, ih]

/-- Running the step machine with fuel equal to the number of pending lines
consumes all input and appends exactly the request-loop outputs. -/
theorem runFrom_spec (model : Model) (input : List String) : ∀ out : List String,
    runFrom ⟨model, input, out⟩ input.length =
      ⟨model, [], out ++ requestLoop model input⟩ := by
  induction input with
  | nil => intro out; simp [runFrom, requestLoop]
  | cons line rest ih =>
      intro out
      simp only [List.length_cons, runFrom, step, requestLoop]
      rw [ih (out ++ [(processLine model line).out])]
      simp

/-- Claim C1: the request loop produces exactly one output line per input
line, and the outputs appear in the same order as their input lines: the
output list is the pointwise image of the input list under the loop body,
and in particular has the same length. -/
theorem requestLoop_one_line_per_input (model : Model) (input : List String) :
    (requestLoop model input).length = input.length ∧
    requestLoop model input = input.map (fun line => (processLine model line).out) := by
  refine ⟨?_, requestLoop_eq_map model input⟩
  rw [requestLoop_eq_map model input]
  exact List.length_map input _

/-- Claim C2: when the transcription attempt for a non-blank line raises,
the exception is caught inside the iteration: the diagnostic line goes to
the error stream, the stdout line for that request is the empty string, and
the loop continues with the remaining input lines. -/
theorem error_caught_per_request (model : Model) (line : String) (rest : List String)
    (msg : String) (hne : pyStrip line ≠ "")
    (herr : model.transcribe (pyStrip line) = TranscribeResult.error msg) :
    (processLine model line).out = "" ∧
    (processLine model line).err = ["Error: " ++ msg] ∧
    requestLoop model (line :: rest) = "" :: requestLoop model rest := by
  have hp : processLine model line =
      { out := "", err := ["Error: " ++ msg], calledWith := some (pyStrip line) } := by
    simp [processLine, hne, herr]
  refine ⟨by rw [hp], by rw [hp], ?_⟩
  simp [requestLoop, hp]

/-- Witness for C2: a concrete failing path yields an empty output line, a
diagnostic, and an unharmed loop. -/
theorem error_caught_per_request_witness :
    pyStrip " bad " ≠ "" ∧
    testModel.transcribe (pyStrip " bad ") = TranscribeResult.error "boom" ∧
    ((processLine testModel " bad ").out = "" ∧
     (processLine testModel " bad ").err = ["Error: " ++ "boom"] ∧
     requestLoop testModel [" bad ", "x"] = "" :: requestLoop testModel ["x"]) :=
  ⟨by decide, by decide,
   error_caught_per_request testModel " bad " ["x"] "boom" (by decide) (by decide)⟩

/-- Claim C4: an input line that strips to the empty string produces a blank
output line, does not invoke the model, and the loop proceeds to the next
input line. -/
theorem blank_line_roundtrip (model : Model) (line : String) (rest : List String)
    (hblank : pyStrip line = "") :
    processLine model line = { out := "", err := [], calledWith := none } ∧
    requestLoop model (line :: rest) = "" :: requestLoop model rest := by
  have hp : processLine model line = { out := "", err := [], calledWith := none } := by
    simp [processLine, hblank]
  exact ⟨hp, by simp [requestLoop, hp]⟩

/-- Witness for C4: a no-break-space line round-trips as a blank output. -/
theorem blank_line_roundtrip_witness :
    pyStrip "\u00a0" = "" ∧
    (processLine testModel "\u00a0" = { out := "", err := [], calledWith := none } ∧
     requestLoop testModel ["\u00a0", "x"] = "" :: requestLoop testModel ["x"]) :=
  ⟨by decide, blank_line_roundtrip testModel "\u00a0" ["x"] (by decide)⟩

/-- A stripped string is empty exactly when every character of the original
string is whitespace. -/
theorem pyStrip_eq_empty_iff (s : String) :
    pyStrip s = "" ↔ ∀ c ∈ s.toList, isPySpace c := by
  constructor
  · intro h c hc
    have hdata : ((s.toList.dropWhile isPySpace).reverse.dropWhile isPySpace).reverse = [] :=
      congrArg String.data h
    have hrev : (s.toList.dropWhile isPySpace).reverse.dropWhile isPySpace = [] := by
      simpa using hdata
    have hdropAll : ∀ x ∈ s.toList.dropWhile isPySpace, isPySpace x := by
      intro x hx
      exact List.dropWhile_eq_nil_iff.mp hrev x (List.mem_reverse.mpr hx)
    have hsplit := List.takeWhile_append_dropWhile (p := isPySpace) (l := s.toList)
    rw [← hsplit] at hc
    rcases List.mem_append.mp hc with h1 | h2
    · exact List.mem_takeWhile_imp h1
    · exact hdropAll c h2
  · intro h
    have hnil : s.toList.dropWhile isPySpace = [] :=
      List.dropWhile_eq_nil_iff.mpr h
    unfold pyStrip
    rw [hnil]
    rfl

/-- Claim C10: a line consisting only of whitespace characters is treated
exactly like a blank line (no model call, blank output line), and for any
line that does not strip to blank, the path handed to the model is the line
with its surrounding whitespace removed. -/
theorem whitespace_only_and_stripped (model : Model) (line : String) :
    ((∀ c ∈ line.toList, isPySpace c) →
      processLine model line = { out := "", err := [], calledWith := none }) ∧
    (pyStrip line ≠ "" →
      (processLine model line).calledWith = some (pyStrip line)) := by
  constructor
  · intro hws
    have hblank : pyStrip line = "" := (pyStrip_eq_empty_iff line).mpr hws
    simp [processLine, hblank]
  · intro hne
    cases htr : model.transcribe (pyStrip line) with
    | ok segments => simp [processLine, hne, htr]
    | error msg => simp [processLine, hne, htr]

/-- Witness for C10: a tab-and-spaces line yields the blank round-trip, and
a padded path is stripped before reaching the model. -/
theorem whitespace_only_and_stripped_witness :
    ((∀ c ∈ (" \t\u00a0").toList, isPySpace c) ∧
     processLine testModel " \t\u00a0" = { out := "", err := [], calledWith := none }) ∧
    (pyStrip "  good.wav\u00a0" ≠ "" ∧
     (processLine testModel "  good.wav\u00a0").calledWith = some (pyStrip "  good.wav\u00a0")) :=
  ⟨⟨by decide, (whitespace_only_and_stripped testModel " \t\u00a0").1 (by decide)⟩,
   ⟨by decide, (whitespace_only_and_stripped testModel "  good.wav\u00a0").2 (by decide)⟩⟩

/-- Claim C5: on a successful transcription the output line is the segment
texts each stripped and joined by single spaces, and it is the empty string
when no segments were produced. -/
theorem transcript_join (model : Model) (line : String) (segments : List Segment)
    (hne : pyStrip line ≠ "")
    (hok : model.transcribe (pyStrip line) = TranscribeResult.ok segments) :
    (processLine model line).out =
      String.intercalate " " (segments.map (fun s => pyStrip s.text)) ∧
    (segments = [] → (processLine model line).out = "") := by
  have hp : (processLine model line).out =
      String.intercalate " " (segments.map (fun s => pyStrip s.text)) := by
    simp [processLine, hne, hok]
  refine ⟨hp, fun hnil => ?_⟩
  rw [hp, hnil]
  rfl

/-- Witness for C5: a concrete successful transcription joins the stripped
segment texts, and a concrete empty segment list yields the empty line. -/
theorem transcript_join_witness :
    (pyStrip "good.wav" ≠ "" ∧
     testModel.transcribe (pyStrip "good.wav") =
       TranscribeResult.ok [⟨" hello "⟩, ⟨"world "⟩] ∧
     (processLine testModel "good.wav").out =
       String.intercalate " " ([⟨" hello "⟩, ⟨"world "⟩].map
         (fun s : Segment => pyStrip s.text))) ∧
    (pyStrip "silent" ≠ "" ∧
     testModel.transcribe (pyStrip "silent") = TranscribeResult.ok [] ∧
     (processLine testModel "silent").out = "") :=
  ⟨⟨by decide, by decide,
     (transcript_join testModel "good.wav" [⟨" hello "⟩, ⟨"world "⟩]
       (by decide) (by decide)).1⟩,
   ⟨by decide, by decide,
     (transcript_join testModel "silent" [] (by decide) (by decide)).2 rfl⟩⟩

/-- Claim C6: the model name is the value of WHISPER_MODEL when that
variable is set, and "small" when it is unset. -/
theorem model_name_resolution (env : String → Option String) :
    (∀ s, env "WHISPER_MODEL" = some s → getModelName env = s) ∧
    (env "WHISPER_MODEL" = none → getModelName env = "small") := by
  constructor
  · intro s hs; simp [getModelName, hs]
  · intro hn; simp [getModelName, hn]

/-- Witness for C6: a set variable wins, an unset one falls back to small. -/
theorem model_name_resolution_witness :
    ((fun v => if v = "WHISPER_MODEL" then some "tiny" else none) "WHISPER_MODEL"
       = some "tiny" ∧
     getModelName (fun v => if v = "WHISPER_MODEL" then some "tiny" else none) = "tiny") ∧
    ((fun _ : String => (none : Option String)) "WHISPER_MODEL" = none ∧
     getModelName (fun _ => none) = "small") :=
  ⟨⟨by decide,
    (model_name_resolution (fun v => if v = "WHISPER_MODEL" then some "tiny" else none)).1
      "tiny" (by decide)⟩,
   ⟨rfl, (model_name_resolution (fun _ => none)).2 rfl⟩⟩

/-- Claim C3: whenever main produces output (the model constructor
succeeded), READY appears exactly once, as the very first output event,
before every transcript line. -/
theorem ready_once_first (env : String → Option String)
    (loadModel : String → Except String Model) (input : List String)
    (evts : List OutEvent) (h : main env loadModel input = Except.ok evts) :
    evts.head? = some OutEvent.ready ∧ evts.count OutEvent.ready = 1 := by
  unfold main at h
  cases hload : loadModel (getModelName env) with
  | error e => rw [hload] at h; exact absurd h (by simp)
  | ok model =>
      rw [hload] at h
      have hevts : evts = OutEvent.ready :: (requestLoop model input).map OutEvent.transcript := by
        have := h
        simpa using this.symm
      subst hevts
      refine ⟨rfl, ?_⟩
      rw [List.count_cons]
      simp [List.count_eq_zero]

/-- Witness for C3: a concrete run emits READY first and exactly once. -/
theorem ready_once_first_witness :
    main (fun _ => none) (fun _ => Except.ok testModel) ["", "good.wav"] =
      Except.ok [OutEvent.ready, OutEvent.transcript "", OutEvent.transcript "hello world"] ∧
    ([OutEvent.ready, OutEvent.transcript "", OutEvent.transcript "hello world"].head?
       = some OutEvent.ready ∧
     [OutEvent.ready, OutEvent.transcript "", OutEvent.transcript "hello world"].count
       OutEvent.ready = 1) :=
  ⟨rfl,
   ready_once_first (fun _ => none) (fun _ => Except.ok testModel) ["", "good.wav"]
     [OutEvent.ready, OutEvent.transcript "", OutEvent.transcript "hello world"]
     rfl⟩

/-- Claim C7: with fuel equal to the length of the (finite) input stream,
the request loop consumes all input, leaves exactly the per-line outputs,
and no further step is possible: the process exits at end-of-stream with no
further output. -/
theorem loop_terminates_at_eof (model : Model) (input : List String) :
    (runFrom ⟨model, input, []⟩ input.length).pendingInput = [] ∧
    (runFrom ⟨model, input, []⟩ input.length).output = requestLoop model input ∧
    step (runFrom ⟨model, input, []⟩ input.length) = none := by
  have hrun := runFrom_spec model input []
  rw [hrun]
  exact ⟨rfl, by simp, rfl⟩

/-- Claim C8: if the model constructor raises, nothing catches it: main
ends in that error, producing no READY token and no loop output at all. -/
theorem load_failure_fatal (env : String → Option String)
    (loadModel : String → Except String Model) (input : List String) (e : String)
    (hfail : loadModel (getModelName env) = Except.error e) :
    main env loadModel input = Except.error e := by
  simp [main, hfail]

/-- Witness for C8: a concrete failing constructor aborts the run. -/
theorem load_failure_fatal_witness :
    (fun _ : String => (Except.error "no such model" : Except String Model))
      (getModelName (fun _ => none)) = Except.error "no such model" ∧
    main (fun _ => none) (fun _ => Except.error "no such model") ["good.wav"] =
      Except.error "no such model" :=
  ⟨rfl, load_failure_fatal (fun _ => none) (fun _ => Except.error "no such model")
     ["good.wav"] "no such model" rfl⟩

/-- Claim C9: no iteration of the request loop rebinds the model handle:
every step of the daemon leaves the model component of the state unchanged,
so each request is served against the model established at startup. -/
theorem model_never_rebound (s s2 : DaemonState) (h : step s = some s2) :
    s2.model = s.model := by
  unfold step at h
  cases hp : s.pendingInput with
  | nil => rw [hp] at h; exact absurd h (by simp)
  | cons line rest =>
      rw [hp] at h
      have : ({ model := s.model, pendingInput := rest,
                output := s.output ++ [(processLine s.model line).out] } : DaemonState)
              = s2 := by simpa using h
      rw [← this]

/-- Witness for C9: one concrete step preserves the model handle. -/
theorem model_never_rebound_witness :
    step ⟨testModel, [""], []⟩ = some ⟨testModel, [], [""]⟩ ∧
    (⟨testModel, [], [""]⟩ : DaemonState).model = (⟨testModel, [""], []⟩ : DaemonState).model :=
  ⟨rfl, model_never_rebound ⟨testModel, [""], []⟩ ⟨testModel, [], [""]⟩ rfl⟩

end WhisperDaemon
